import Mathlib

/-!
# nntpchan-daemon: event loop socket set-up

A shallow embedding of `libnntpchan/event.cpp` (`Loop::BindTCP`,
`Loop::SetNonBlocking`) over an explicit model of the process: the table of
open descriptors, the multiplexer's interest set and the trace of calls the
program has issued.  A call fails where the operating system makes it fail
(a descriptor that is not open, flags a socket does not take); the failures
that depend on what the model does not hold (addresses in use, resource
limits, permissions) are chosen by a `Kernel` value, so that every failure
path of the code can be exercised.
-/

namespace nntpchan

/-! ## Constants of the system headers (Linux values) -/

/-- AF_UNIX of `<sys/socket.h>`. -/
def AF_UNIX : Nat := 1
/-- AF_INET of `<sys/socket.h>`. -/
def AF_INET : Nat := 2
/-- AF_INET6 of `<sys/socket.h>`. -/
def AF_INET6 : Nat := 10
/-- SOCK_STREAM of `<sys/socket.h>`. -/
def SOCK_STREAM : Nat := 1
/-- SOCK_NONBLOCK of `<sys/socket.h>` (octal 04000, bit 11). -/
def SOCK_NONBLOCK : Nat := 2048
/-- O_RDWR of `<fcntl.h>`. -/
def O_RDWR : Int := 2
/-- O_NONBLOCK of `<fcntl.h>` (octal 04000, bit 11). -/
def O_NONBLOCK : Int := 2048
/-- The bits of the file status flags that `F_SETFL` can change on Linux
(fcntl(2)): `O_APPEND | O_NONBLOCK | O_ASYNC | O_DIRECT | O_NOATIME`, that is
octal 02000 + 04000 + 020000 + 040000 + 01000000. -/
def SETFL_MASK : Nat := 289792
/-- The value of `sizeof(sockaddr_in)`. -/
def sizeof_sockaddr_in : Nat := 16
/-- The value of `sizeof(sockaddr_in6)`. -/
def sizeof_sockaddr_in6 : Nat := 28
/-- The value of `sizeof(sockaddr_un)`. -/
def sizeof_sockaddr_un : Nat := 110

/-! ## Data model -/

/-- A generic socket address: the family tag and the family-specific bytes. -/
structure sockaddr where
  sa_family : Nat
  sa_data : List Nat
deriving DecidableEq, Repr

/-- The part of `ev::io` that `event.cpp` uses: the descriptor field `fd` and
the answer of the virtual member `acceptable()`. -/
structure io where
  fd : Int
  acceptable : Bool
deriving DecidableEq, Repr

/-- One call issued by the program, with its arguments. -/
inductive Call where
  | socket (domain : Nat) (type : Nat) (protocol : Nat)
  | bind (fd : Int) (addr : sockaddr) (slen : Nat)
  | listen (fd : Int) (backlog : Int)
  | close (fd : Int)
  | TrackConn (handler : io)
  | fcntl_getfl (fd : Int)
  | fcntl_setfl (fd : Int) (flags : Int)
deriving DecidableEq, Repr

/-- One entry of the table of open descriptors. -/
structure Descriptor where
  fd : Int
  domain : Nat
  type : Nat
  flags : Int
  bound : Option (sockaddr × Nat)
  backlog : Option Int
deriving DecidableEq, Repr

/-- The state of the process that the code acts on. -/
structure World where
  /-- The open descriptors. -/
  fds : List Descriptor
  /-- The handlers registered in the multiplexer's interest set. -/
  tracked : List io
  /-- The calls issued so far, oldest first. -/
  calls : List Call
deriving DecidableEq, Repr

/-- How the environment answers: which calls fail for a reason outside the
model.  There is no such choice for `fcntl(fd, F_GETFL, 0)`, which fails only
on a descriptor that is not open. -/
structure Kernel where
  socket_fails : Bool
  bind_fails : Bool
  listen_fails : Bool
  TrackConn_fails : Bool
  setfl_fails : Bool
deriving DecidableEq, Repr

/-- The result of running a function that may stop at a failed `assert`. -/
inductive Outcome (α : Type) where
  | aborted (w : World)
  | returned (r : α) (w : World)
deriving DecidableEq, Repr

/-! ## The environment -/

/-- The numbers of the open descriptors. -/
def World.open_fds (w : World) : List Int := w.fds.map (fun d => d.fd)

/-- Record a call in the trace. -/
def World.log (w : World) (c : Call) : World := { w with calls := w.calls ++ [c] }

/-- The lowest descriptor number that is not open. -/
def World.lowest_free (w : World) : Nat :=
  ((List.range (w.fds.length + 1)).find? (fun (n : Nat) => decide ((n : Int) ∉ w.open_fds))).getD
    w.fds.length

/-- Replace the entry of every open descriptor numbered `fd` by its image
under `f`. -/
def World.update (w : World) (fd : Int) (f : Descriptor → Descriptor) : World :=
  { w with fds := w.fds.map (fun d => if d.fd = fd then f d else d) }

/-- The operator `|` on two values of the C type `int` (32 bits, two's
complement): the bitwise or of the two bit patterns, read back as signed. -/
def int_or (a b : Int) : Int :=
  let u : Nat := (a % 4294967296).toNat ||| (b % 4294967296).toNat
  if u < 2147483648 then (u : Int) else (u : Int) - 4294967296

/-- The file status flags a new socket starts with. -/
def initial_flags (type : Nat) : Int :=
  if type.testBit 11 then int_or O_RDWR O_NONBLOCK else O_RDWR

/-- The call `socket(domain, type, protocol)`: `-1` on failure, else the lowest
free descriptor number, now open. -/
def sys_socket (k : Kernel) (domain type protocol : Nat) (w : World) : Int × World :=
  let w1 := w.log (Call.socket domain type protocol)
  if k.socket_fails then (-1, w1)
  else
    let fd : Int := (w.lowest_free : Int)
    (fd, { w1 with fds := ⟨fd, domain, type, initial_flags type, none, none⟩ :: w1.fds })

/-- The call `bind(fd, addr, slen)`: `-1` on failure (also when `fd` is not
open), else `0` with the descriptor bound. -/
def sys_bind (k : Kernel) (fd : Int) (addr : sockaddr) (slen : Nat) (w : World) : Int × World :=
  let w1 := w.log (Call.bind fd addr slen)
  if k.bind_fails || !(w.open_fds.contains fd) then (-1, w1)
  else
    (0, w1.update fd (fun d => { d with bound := some (addr, slen) }))

/-- The call `listen(fd, backlog)`: `-1` on failure (also when `fd` is not
open), else `0` with the descriptor listening. -/
def sys_listen (k : Kernel) (fd : Int) (backlog : Int) (w : World) : Int × World :=
  let w1 := w.log (Call.listen fd backlog)
  if k.listen_fails || !(w.open_fds.contains fd) then (-1, w1)
  else
    (0, w1.update fd (fun d => { d with backlog := some backlog }))

/-- The call `::close(fd)`: the descriptor is no longer open. -/
def sys_close (fd : Int) (w : World) : Int × World :=
  let w1 := w.log (Call.close fd)
  (if w.open_fds.contains fd then 0 else -1,
    { w1 with fds := w1.fds.filter (fun d => d.fd ≠ fd) })

/-- The call `fcntl(fd, F_GETFL, 0)`: `-1` when `fd` is not open (EBADF, its
only failure), else the file status flags of the descriptor. -/
def sys_fcntl_getfl (_k : Kernel) (fd : Int) (w : World) : Int × World :=
  let w1 := w.log (Call.fcntl_getfl fd)
  match w.fds.find? (fun d => d.fd = fd) with
  | none => (-1, w1)
  | some d => (d.flags, w1)

/-- The file status flags after a successful `F_SETFL`: the bits of
`SETFL_MASK` are those of the argument, every other bit stays as it was
(32-bit patterns, read back as signed). -/
def setfl_flags (old arg : Int) : Int :=
  let u : Nat := ((arg % 4294967296).toNat &&& SETFL_MASK)
    ||| ((old % 4294967296).toNat &&& (4294967295 - SETFL_MASK))
  if u < 2147483648 then (u : Int) else (u : Int) - 4294967296

/-- The call `fcntl(fd, F_SETFL, flags)`: `-1` when `fd` is not open (EBADF),
when the flags ask for `O_DIRECT` (bit 14), which a socket does not take
(EINVAL), or when the environment says so (EPERM); else `0`, and the settable
bits of the file status flags of the descriptor are those of `flags`. -/
def sys_fcntl_setfl (k : Kernel) (fd : Int) (flags : Int) (w : World) : Int × World :=
  let w1 := w.log (Call.fcntl_setfl fd flags)
  match w.fds.find? (fun d => d.fd = fd) with
  | none => (-1, w1)
  | some d0 =>
    if k.setfl_fails || ((flags % 4294967296).toNat).testBit 14 then (-1, w1)
    else (0, w1.update fd (fun d => { d with flags := setfl_flags d0.flags flags }))

/-- Modelled from the spec: `Loop::TrackConn` is declared in the event loop's
header and defined by the platform loop (`epoll.hpp`, `kqueue.hpp`), none of
which is among the sources.  The spec (4.2): it "registers an already-prepared
handle into the platform-specific interest set", and "returns false if
registration fails".  It does nothing else. -/
def TrackConn (k : Kernel) (handler : io) (w : World) : Bool × World :=
  let w1 := w.log (Call.TrackConn handler)
  if k.TrackConn_fails then (false, w1)
  else (true, { w1 with tracked := handler :: w1.tracked })

/-! ## `event.cpp` -/

/-- The `switch (addr->sa_family)` of `Loop::BindTCP` (lines 35-48): the
address length of a supported family, `none` for the `default:` branch. -/
def BindTCP.slen (sa_family : Nat) : Option Nat :=
  if sa_family = AF_INET then some sizeof_sockaddr_in
  else if sa_family = AF_INET6 then some sizeof_sockaddr_in6
  else if sa_family = AF_UNIX then some sizeof_sockaddr_un
  else none

/-- The member `Loop::BindTCP(const sockaddr *addr, ev::io *handler)` (lines 31-69).
`assert` is the one of `<cassert>` with `NDEBUG` not defined (the file does
not define it): a false condition stops the program there.  The result holds
the returned `bool` and the handler as the call leaves it. -/
def BindTCP (k : Kernel) (addr : sockaddr) (handler : io) (w : World) : Outcome (Bool × io) :=
  if !handler.acceptable then Outcome.aborted w
  else
    match BindTCP.slen addr.sa_family with
    | none => Outcome.returned (false, handler) w
    | some slen =>
      let (fd, w1) := sys_socket k addr.sa_family (SOCK_STREAM ||| SOCK_NONBLOCK) 0 w
      if fd = -1 then Outcome.returned (false, handler) w1
      else
        let (rb, w2) := sys_bind k fd addr slen w1
        if rb = -1 then
          let (_, w3) := sys_close fd w2
          Outcome.returned (false, handler) w3
        else
          let (rl, w3) := sys_listen k fd 5 w2
          if rl = -1 then
            let (_, w4) := sys_close fd w3
            Outcome.returned (false, handler) w4
          else
            let handler1 : io := { handler with fd := fd }
            let (r, w4) := TrackConn k handler1 w3
            Outcome.returned (r, handler1) w4

/-- The member `Loop::SetNonBlocking(ev::io *handler)` (lines 71-74): the inner `fcntl`
is an argument of the outer one, so it runs first. -/
def SetNonBlocking (k : Kernel) (handler : io) (w : World) : Bool × World :=
  let (f, w1) := sys_fcntl_getfl k handler.fd w
  let (r, w2) := sys_fcntl_setfl k handler.fd (int_or f O_NONBLOCK) w1
  (r != -1, w2)

/-- The calls issued between the state `w` and the later state `w1`. -/
def issued (w w1 : World) : List Call := w1.calls.drop w.calls.length

/-- An empty process: nothing open, nothing tracked, no call issued. -/
def World.empty : World := ⟨[], [], []⟩

/-- An environment in which no call fails. -/
def Kernel.all_succeed : Kernel := ⟨false, false, false, false, false⟩

/-- The address 127.0.0.1, port 8080 (family AF_INET). -/
def loopback : sockaddr := ⟨AF_INET, [31, 144, 127, 0, 0, 1]⟩

/-- A handler whose `acceptable()` is true, with no descriptor yet. -/
def listener : io := ⟨-1, true⟩

/-- The state an outcome ends in. -/
def Outcome.world {α : Type} : Outcome α → World
  | Outcome.aborted w => w
  | Outcome.returned _ w => w

/-- Whether a call is a `listen`. -/
def Call.is_listen : Call → Bool
  | Call.listen _ _ => true
  | _ => false

/-- Whether a call is a `socket`. -/
def Call.is_socket : Call → Bool
  | Call.socket _ _ _ => true
  | _ => false

/-- The descriptor a call hands to `bind`, `listen` or `TrackConn`. -/
def Call.handed_fd : Call → Option Int
  | Call.bind fd _ _ => some fd
  | Call.listen fd _ => some fd
  | Call.TrackConn handler => some handler.fd
  | _ => none

/-- A process whose only open descriptor is 3, a blocking stream socket. -/
def World.one_socket : World := ⟨[⟨3, AF_INET, SOCK_STREAM, O_RDWR, none, none⟩], [], []⟩

/-! ## Lemmas on the environment -/

theorem lowest_free_not_open (w : World) : (w.lowest_free : Int) ∉ w.open_fds := by
  unfold World.lowest_free
  cases hfind : (List.range (w.fds.length + 1)).find?
      (fun (n : Nat) => decide ((n : Int) ∉ w.open_fds)) with
  | some n =>
    have hp := List.find?_some hfind
    simpa using hp
  | none =>
    exfalso
    rw [List.find?_eq_none] at hfind
    have hsub : (List.range (w.fds.length + 1)).map (fun (n : Nat) => (n : Int)) ⊆ w.open_fds := by
      intro x hx
      obtain ⟨n, hn, rfl⟩ := List.mem_map.1 hx
      have := hfind n hn
      simpa using this
    have hnd : ((List.range (w.fds.length + 1)).map (fun (n : Nat) => (n : Int))).Nodup :=
      (List.nodup_range _).map (fun a b hab => Int.ofNat.inj hab)
    have hle := (hnd.subperm hsub).length_le
    simp [World.open_fds] at hle

theorem map_if_of_not_open (fds : List Descriptor) (fd : Int) (f : Descriptor → Descriptor)
    (h : fd ∉ fds.map (fun d => d.fd)) :
    fds.map (fun d => if d.fd = fd then f d else d) = fds := by
  induction fds with
  | nil => rfl
  | cons d ds ih =>
    simp only [List.map_cons, List.mem_cons, not_or] at h
    simp only [List.map_cons, ih h.2]
    rw [if_neg (fun hd => h.1 hd.symm)]

theorem filter_ne_of_not_open (fds : List Descriptor) (fd : Int)
    (h : fd ∉ fds.map (fun d => d.fd)) :
    fds.filter (fun d => decide (d.fd ≠ fd)) = fds := by
  induction fds with
  | nil => rfl
  | cons d ds ih =>
    simp only [List.map_cons, List.mem_cons, not_or] at h
    have hd : d.fd ≠ fd := fun hd => h.1 hd.symm
    rw [List.filter_cons_of_pos (by simpa using hd), ih h.2]

theorem update_created (w : World) (tr : List io) (cs : List Call)
    (f : Descriptor → Descriptor) (d : Descriptor) (hd : d.fd = (w.lowest_free : Int)) :
    World.update ⟨d :: w.fds, tr, cs⟩ (w.lowest_free : Int) f = ⟨f d :: w.fds, tr, cs⟩ := by
  have h := map_if_of_not_open w.fds _ f (lowest_free_not_open w)
  simp [World.update, hd, h]

theorem close_created (w : World) (tr : List io) (cs : List Call)
    (d : Descriptor) (hd : d.fd = (w.lowest_free : Int)) :
    sys_close (w.lowest_free : Int) ⟨d :: w.fds, tr, cs⟩
      = (0, ⟨w.fds, tr, cs ++ [Call.close (w.lowest_free : Int)]⟩) := by
  have h := filter_ne_of_not_open w.fds _ (lowest_free_not_open w)
  simp only [sys_close, World.log, World.open_fds, List.map_cons, hd, List.contains_cons,
    beq_self_eq_true, Bool.true_or, if_true, List.filter_cons, ne_eq, not_true_eq_false,
    decide_False, Bool.false_eq_true, if_false]
  rw [h]

/-! ## The paths of `BindTCP` in closed form -/

theorem BindTCP_aborts (k : Kernel) (addr : sockaddr) (handler : io) (w : World)
    (hacc : handler.acceptable = false) :
    BindTCP k addr handler w = Outcome.aborted w := by
  simp [BindTCP, hacc]

theorem BindTCP_default (k : Kernel) (addr : sockaddr) (handler : io) (w : World)
    (hacc : handler.acceptable = true) (hn : BindTCP.slen addr.sa_family = none) :
    BindTCP k addr handler w = Outcome.returned (false, handler) w := by
  simp [BindTCP, hacc, hn]

theorem BindTCP_socket_fails (k : Kernel) (addr : sockaddr) (handler : io) (w : World) (n : Nat)
    (hacc : handler.acceptable = true) (hn : BindTCP.slen addr.sa_family = some n)
    (hs : k.socket_fails = true) :
    BindTCP k addr handler w = Outcome.returned (false, handler)
      ⟨w.fds, w.tracked,
        w.calls ++ [Call.socket addr.sa_family (SOCK_STREAM ||| SOCK_NONBLOCK) 0]⟩ := by
  simp [BindTCP, hacc, hn, sys_socket, hs, World.log]

theorem BindTCP_bind_fails (k : Kernel) (addr : sockaddr) (handler : io) (w : World) (n : Nat)
    (hacc : handler.acceptable = true) (hn : BindTCP.slen addr.sa_family = some n)
    (hs : k.socket_fails = false) (hb : k.bind_fails = true) :
    BindTCP k addr handler w = Outcome.returned (false, handler)
      ⟨w.fds, w.tracked,
        w.calls ++ [Call.socket addr.sa_family (SOCK_STREAM ||| SOCK_NONBLOCK) 0,
          Call.bind (w.lowest_free : Int) addr n, Call.close (w.lowest_free : Int)]⟩ := by
  simp [BindTCP, hacc, hn, sys_socket, hs, sys_bind, hb, World.log, close_created]

theorem BindTCP_listen_fails (k : Kernel) (addr : sockaddr) (handler : io) (w : World) (n : Nat)
    (hacc : handler.acceptable = true) (hn : BindTCP.slen addr.sa_family = some n)
    (hs : k.socket_fails = false) (hb : k.bind_fails = false) (hl : k.listen_fails = true) :
    BindTCP k addr handler w = Outcome.returned (false, handler)
      ⟨w.fds, w.tracked,
        w.calls ++ [Call.socket addr.sa_family (SOCK_STREAM ||| SOCK_NONBLOCK) 0,
          Call.bind (w.lowest_free : Int) addr n, Call.listen (w.lowest_free : Int) 5,
          Call.close (w.lowest_free : Int)]⟩ := by
  simp [BindTCP, hacc, hn, sys_socket, hs, sys_bind, hb, sys_listen, hl, World.log,
    World.open_fds, update_created, close_created]

theorem BindTCP_reaches_TrackConn (k : Kernel) (addr : sockaddr) (handler : io) (w : World)
    (n : Nat)
    (hacc : handler.acceptable = true) (hn : BindTCP.slen addr.sa_family = some n)
    (hs : k.socket_fails = false) (hb : k.bind_fails = false) (hl : k.listen_fails = false) :
    BindTCP k addr handler w = Outcome.returned
      (!k.TrackConn_fails, { handler with fd := (w.lowest_free : Int) })
      ⟨⟨(w.lowest_free : Int), addr.sa_family, SOCK_STREAM ||| SOCK_NONBLOCK,
          initial_flags (SOCK_STREAM ||| SOCK_NONBLOCK), some (addr, n), some 5⟩ :: w.fds,
        if k.TrackConn_fails then w.tracked
        else { handler with fd := (w.lowest_free : Int) } :: w.tracked,
        w.calls ++ [Call.socket addr.sa_family (SOCK_STREAM ||| SOCK_NONBLOCK) 0,
          Call.bind (w.lowest_free : Int) addr n, Call.listen (w.lowest_free : Int) 5,
          Call.TrackConn { handler with fd := (w.lowest_free : Int) }]⟩ := by
  cases ht : k.TrackConn_fails <;>
  simp [BindTCP, hacc, hn, sys_socket, hs, sys_bind, hb, sys_listen, hl, World.log,
    World.open_fds, update_created, TrackConn, ht]

theorem issued_self (w : World) : issued w w = [] := by
  simp [issued]

theorem issued_append (w : World) (fds : List Descriptor) (tr : List io) (cs : List Call) :
    issued w ⟨fds, tr, w.calls ++ cs⟩ = cs := by
  simp [issued]

theorem slen_eq_none (sa_family : Nat) :
    BindTCP.slen sa_family = none ↔
      sa_family ≠ AF_INET ∧ sa_family ≠ AF_INET6 ∧ sa_family ≠ AF_UNIX := by
  unfold BindTCP.slen
  split_ifs with h1 h2 h3 <;> simp_all

theorem slen_supported (sa_family : Nat)
    (h : sa_family = AF_INET ∨ sa_family = AF_INET6 ∨ sa_family = AF_UNIX) :
    ∃ n, BindTCP.slen sa_family = some n := by
  cases hn : BindTCP.slen sa_family with
  | some n => exact ⟨n, rfl⟩
  | none =>
    have := (slen_eq_none sa_family).1 hn
    tauto

/-! ## The claims on `BindTCP` -/

/-- C2: for an address whose family is none of AF_INET, AF_INET6, AF_UNIX and
an acceptable handler, `BindTCP` returns false, leaves the handler and the
whole state as they were, and issues no call at all (so no `socket`, `bind`,
`listen` or `TrackConn`); the number of open descriptors is unchanged. -/
theorem BindTCP_unsupported_family (k : Kernel) (addr : sockaddr) (handler : io) (w : World)
    (hacc : handler.acceptable = true)
    (hfam : addr.sa_family ≠ AF_INET ∧ addr.sa_family ≠ AF_INET6 ∧ addr.sa_family ≠ AF_UNIX) :
    BindTCP k addr handler w = Outcome.returned (false, handler) w ∧
    issued w (BindTCP k addr handler w).world = [] ∧
    (BindTCP k addr handler w).world.fds.length = w.fds.length := by
  have h := BindTCP_default k addr handler w hacc ((slen_eq_none _).2 hfam)
  rw [h]
  exact ⟨rfl, issued_self w, rfl⟩

/-- Witness of C2: family 3 (neither 1, 2 nor 10), on an empty process. -/
theorem BindTCP_unsupported_family_witness :
    (io.mk (-1) true).acceptable = true ∧
    ((sockaddr.mk 3 []).sa_family ≠ AF_INET ∧ (sockaddr.mk 3 []).sa_family ≠ AF_INET6 ∧
      (sockaddr.mk 3 []).sa_family ≠ AF_UNIX) ∧
    (BindTCP ⟨false, false, false, false, false⟩ ⟨3, []⟩ ⟨-1, true⟩ World.empty
        = Outcome.returned (false, ⟨-1, true⟩) World.empty ∧
      issued World.empty
        (BindTCP ⟨false, false, false, false, false⟩ ⟨3, []⟩ ⟨-1, true⟩ World.empty).world
        = [] ∧
      (BindTCP ⟨false, false, false, false, false⟩ ⟨3, []⟩ ⟨-1, true⟩
        World.empty).world.fds.length = World.empty.fds.length) :=
  ⟨rfl, by decide,
    BindTCP_unsupported_family ⟨false, false, false, false, false⟩ ⟨3, []⟩ ⟨-1, true⟩
      World.empty rfl (by decide)⟩

/-- C5: for an address of family AF_INET, AF_INET6 or AF_UNIX and an acceptable
handler, when `socket`, `bind`, `listen` and `TrackConn` all succeed, `BindTCP`
returns true; the open descriptors are the former ones plus exactly one new
entry, whose number was not open before, which is bound to the address with
the length of its family and listens (backlog 5); that number is stored in
`handler->fd`; the handler is added to the interest set; and `TrackConn` is
called exactly once, with this handler. -/
theorem BindTCP_success (k : Kernel) (addr : sockaddr) (handler : io) (w : World)
    (hacc : handler.acceptable = true)
    (hfam : addr.sa_family = AF_INET ∨ addr.sa_family = AF_INET6 ∨ addr.sa_family = AF_UNIX)
    (hs : k.socket_fails = false) (hb : k.bind_fails = false) (hl : k.listen_fails = false)
    (ht : k.TrackConn_fails = false) :
    ∃ (w1 : World) (slen : Nat),
      BindTCP.slen addr.sa_family = some slen ∧
      BindTCP k addr handler w
        = Outcome.returned (true, { handler with fd := (w.lowest_free : Int) }) w1 ∧
      (w.lowest_free : Int) ∉ w.open_fds ∧
      w1.fds = ⟨(w.lowest_free : Int), addr.sa_family, SOCK_STREAM ||| SOCK_NONBLOCK,
          initial_flags (SOCK_STREAM ||| SOCK_NONBLOCK), some (addr, slen), some 5⟩ :: w.fds ∧
      w1.tracked = { handler with fd := (w.lowest_free : Int) } :: w.tracked ∧
      (issued w w1).count (Call.TrackConn { handler with fd := (w.lowest_free : Int) }) = 1 ∧
      (∀ h, Call.TrackConn h ∈ issued w w1 →
        h = { handler with fd := (w.lowest_free : Int) }) := by
  obtain ⟨n, hn⟩ := slen_supported _ hfam
  have h := BindTCP_reaches_TrackConn k addr handler w n hacc hn hs hb hl
  rw [ht] at h
  refine ⟨_, n, hn, h, lowest_free_not_open w, rfl, rfl, ?_, ?_⟩
  · rw [issued_append]
    simp [List.count_cons]
  · intro h1 hmem
    rw [issued_append] at hmem
    simpa using hmem

/-- Witness of C5: 127.0.0.1:8080 on an empty process where no call fails. -/
theorem BindTCP_success_witness :
    listener.acceptable = true ∧
    (loopback.sa_family = AF_INET ∨ loopback.sa_family = AF_INET6 ∨
      loopback.sa_family = AF_UNIX) ∧
    ∃ (w1 : World) (slen : Nat),
      BindTCP.slen loopback.sa_family = some slen ∧
      BindTCP Kernel.all_succeed loopback listener World.empty
        = Outcome.returned (true, { listener with fd := (World.empty.lowest_free : Int) }) w1 ∧
      (World.empty.lowest_free : Int) ∉ World.empty.open_fds ∧
      w1.fds = ⟨(World.empty.lowest_free : Int), loopback.sa_family,
          SOCK_STREAM ||| SOCK_NONBLOCK, initial_flags (SOCK_STREAM ||| SOCK_NONBLOCK),
          some (loopback, slen), some 5⟩ :: World.empty.fds ∧
      w1.tracked = { listener with fd := (World.empty.lowest_free : Int) }
        :: World.empty.tracked ∧
      (issued World.empty w1).count
        (Call.TrackConn { listener with fd := (World.empty.lowest_free : Int) }) = 1 ∧
      (∀ h, Call.TrackConn h ∈ issued World.empty w1 →
        h = { listener with fd := (World.empty.lowest_free : Int) }) :=
  ⟨rfl, Or.inl rfl,
    BindTCP_success Kernel.all_succeed loopback listener World.empty rfl (Or.inl rfl)
      rfl rfl rfl rfl⟩

/-- C6: when `socket` succeeds and the bind step fails, or the listen step
fails, `BindTCP` returns false with the handler (so `handler->fd`) as it was;
the descriptor it created is closed by its last call and is not open
afterwards; the open descriptors and the interest set are those from before
the call; and `TrackConn` is not called. -/
theorem BindTCP_bind_or_listen_fails (k : Kernel) (addr : sockaddr) (handler : io) (w : World)
    (hacc : handler.acceptable = true)
    (hfam : addr.sa_family = AF_INET ∨ addr.sa_family = AF_INET6 ∨ addr.sa_family = AF_UNIX)
    (hs : k.socket_fails = false)
    (hfail : k.bind_fails = true ∨ k.listen_fails = true) :
    ∃ w1 : World,
      BindTCP k addr handler w = Outcome.returned (false, handler) w1 ∧
      (issued w w1).head? = some (Call.socket addr.sa_family (SOCK_STREAM ||| SOCK_NONBLOCK) 0) ∧
      (issued w w1).getLast? = some (Call.close (w.lowest_free : Int)) ∧
      (w.lowest_free : Int) ∉ w1.open_fds ∧
      w1.fds = w.fds ∧
      w1.tracked = w.tracked ∧
      (∀ h, Call.TrackConn h ∉ issued w w1) := by
  obtain ⟨n, hn⟩ := slen_supported _ hfam
  cases hb : k.bind_fails with
  | true =>
    refine ⟨_, BindTCP_bind_fails k addr handler w n hacc hn hs hb, ?_, ?_,
      lowest_free_not_open w, rfl, rfl, ?_⟩ <;> simp [issued_append]
  | false =>
    have hl : k.listen_fails = true := by
      rcases hfail with h | h
      · rw [hb] at h; cases h
      · exact h
    refine ⟨_, BindTCP_listen_fails k addr handler w n hacc hn hs hb hl, ?_, ?_,
      lowest_free_not_open w, rfl, rfl, ?_⟩ <;> simp [issued_append]

/-- Witness of C6: on a process with descriptor 0 open, `bind` fails (and
`listen` would not); descriptor 1 is created and closed again. -/
theorem BindTCP_bind_or_listen_fails_witness :
    listener.acceptable = true ∧
    (Kernel.mk false true false false false).bind_fails = true ∧
    ∃ w1 : World,
      BindTCP ⟨false, true, false, false, false⟩ loopback listener
          ⟨[⟨0, AF_UNIX, SOCK_STREAM, O_RDWR, none, none⟩], [], []⟩
        = Outcome.returned (false, listener) w1 ∧
      (issued ⟨[⟨0, AF_UNIX, SOCK_STREAM, O_RDWR, none, none⟩], [], []⟩ w1).head?
        = some (Call.socket loopback.sa_family (SOCK_STREAM ||| SOCK_NONBLOCK) 0) ∧
      (issued ⟨[⟨0, AF_UNIX, SOCK_STREAM, O_RDWR, none, none⟩], [], []⟩ w1).getLast?
        = some (Call.close
            ((World.mk [⟨0, AF_UNIX, SOCK_STREAM, O_RDWR, none, none⟩] [] []).lowest_free : Int)) ∧
      ((World.mk [⟨0, AF_UNIX, SOCK_STREAM, O_RDWR, none, none⟩] [] []).lowest_free : Int)
        ∉ w1.open_fds ∧
      w1.fds = [⟨0, AF_UNIX, SOCK_STREAM, O_RDWR, none, none⟩] ∧
      w1.tracked = [] ∧
      (∀ h, Call.TrackConn h ∉
        issued ⟨[⟨0, AF_UNIX, SOCK_STREAM, O_RDWR, none, none⟩], [], []⟩ w1) :=
  ⟨rfl, rfl,
    BindTCP_bind_or_listen_fails ⟨false, true, false, false, false⟩ loopback listener
      ⟨[⟨0, AF_UNIX, SOCK_STREAM, O_RDWR, none, none⟩], [], []⟩ rfl (Or.inl rfl) rfl (Or.inl rfl)⟩

/-- C8: the assertion of `BindTCP` on `handler->acceptable()`.  When it is
false the call does not return: it stops at the assertion, in the state it
was entered in, before any call is issued (nothing created, bound, listened
on or registered), whatever the address and the environment.  When it is true
the assertion does not stop the call, which returns. -/
theorem BindTCP_assert (k : Kernel) (addr : sockaddr) (handler : io) (w : World) :
    (handler.acceptable = false →
      BindTCP k addr handler w = Outcome.aborted w ∧
      issued w (BindTCP k addr handler w).world = [] ∧
      (BindTCP k addr handler w).world.fds = w.fds ∧
      (BindTCP k addr handler w).world.tracked = w.tracked) ∧
    (handler.acceptable = true →
      ∃ (r : Bool × io) (w1 : World), BindTCP k addr handler w = Outcome.returned r w1) := by
  constructor
  · intro hacc
    rw [BindTCP_aborts k addr handler w hacc]
    exact ⟨rfl, issued_self w, rfl, rfl⟩
  · intro hacc
    cases hn : BindTCP.slen addr.sa_family with
    | none => exact ⟨_, _, BindTCP_default k addr handler w hacc hn⟩
    | some n =>
      cases hs : k.socket_fails with
      | true => exact ⟨_, _, BindTCP_socket_fails k addr handler w n hacc hn hs⟩
      | false =>
        cases hb : k.bind_fails with
        | true => exact ⟨_, _, BindTCP_bind_fails k addr handler w n hacc hn hs hb⟩
        | false =>
          cases hl : k.listen_fails with
          | true => exact ⟨_, _, BindTCP_listen_fails k addr handler w n hacc hn hs hb hl⟩
          | false => exact ⟨_, _, BindTCP_reaches_TrackConn k addr handler w n hacc hn hs hb hl⟩

/-- C7: on every path of `BindTCP` (any environment, address, handler and
state), each `socket` call it issues is `socket(addr->sa_family,
SOCK_STREAM | SOCK_NONBLOCK, 0)`, whose type is SOCK_STREAM with the
SOCK_NONBLOCK bit (bit 11) set; it issues at most one, and exactly one for an
acceptable handler and a supported family; and every descriptor it hands to
`bind`, `listen` or `TrackConn` is the one that this `socket` call, the first
call issued, returned. -/
theorem BindTCP_socket_request (k : Kernel) (addr : sockaddr) (handler : io) (w : World) :
    (∀ c ∈ issued w (BindTCP k addr handler w).world,
      (c.is_socket = true →
        c = Call.socket addr.sa_family (SOCK_STREAM ||| SOCK_NONBLOCK) 0) ∧
      (∀ fd, c.handed_fd = some fd →
        fd = (w.lowest_free : Int) ∧ k.socket_fails = false ∧
        (issued w (BindTCP k addr handler w).world).head?
          = some (Call.socket addr.sa_family (SOCK_STREAM ||| SOCK_NONBLOCK) 0))) ∧
    (issued w (BindTCP k addr handler w).world).countP Call.is_socket ≤ 1 ∧
    (handler.acceptable = true → BindTCP.slen addr.sa_family ≠ none →
      (issued w (BindTCP k addr handler w).world).countP Call.is_socket = 1) ∧
    (SOCK_STREAM ||| SOCK_NONBLOCK).testBit 11 = true ∧
    (SOCK_STREAM ||| SOCK_NONBLOCK) % 16 = SOCK_STREAM := by
  refine ⟨?_, ?_, ?_, by decide, by decide⟩
  all_goals
    cases hacc : handler.acceptable with
    | false =>
      rw [BindTCP_aborts k addr handler w hacc]
      simp [Outcome.world, issued_self]
    | true =>
      cases hn : BindTCP.slen addr.sa_family with
      | none =>
        rw [BindTCP_default k addr handler w hacc hn]
        simp [Outcome.world, issued_self]
      | some n =>
        cases hs : k.socket_fails with
        | true =>
          rw [BindTCP_socket_fails k addr handler w n hacc hn hs]
          simp [Outcome.world, issued_append, Call.is_socket, Call.handed_fd]
        | false =>
          cases hb : k.bind_fails with
          | true =>
            rw [BindTCP_bind_fails k addr handler w n hacc hn hs hb]
            simp [Outcome.world, issued_append, Call.is_socket, Call.handed_fd]
          | false =>
            cases hl : k.listen_fails with
            | true =>
              rw [BindTCP_listen_fails k addr handler w n hacc hn hs hb hl]
              simp [Outcome.world, issued_append, Call.is_socket, Call.handed_fd]
            | false =>
              rw [BindTCP_reaches_TrackConn k addr handler w n hacc hn hs hb hl]
              simp [Outcome.world, issued_append, Call.is_socket, Call.handed_fd]

/-- C9: on every execution of `BindTCP`, a `listen` call it issues has backlog
5 and is its only `listen` call; its descriptor is the one the `socket` call
just returned and the `bind` call just bound (the three calls are the first
three issued, in that order, `socket` and `bind` having succeeded).  The
listen step is reached whenever the handler is acceptable, the family is
supported and `socket` and `bind` succeed. -/
theorem BindTCP_listen_backlog (k : Kernel) (addr : sockaddr) (handler : io) (w : World) :
    (∀ fd b, Call.listen fd b ∈ issued w (BindTCP k addr handler w).world →
      b = 5 ∧ fd = (w.lowest_free : Int) ∧
      (issued w (BindTCP k addr handler w).world).filter Call.is_listen
        = [Call.listen (w.lowest_free : Int) 5] ∧
      k.socket_fails = false ∧ k.bind_fails = false ∧
      ∃ slen, BindTCP.slen addr.sa_family = some slen ∧
        (issued w (BindTCP k addr handler w).world).take 3
          = [Call.socket addr.sa_family (SOCK_STREAM ||| SOCK_NONBLOCK) 0,
             Call.bind (w.lowest_free : Int) addr slen,
             Call.listen (w.lowest_free : Int) 5]) ∧
    (handler.acceptable = true → BindTCP.slen addr.sa_family ≠ none →
      k.socket_fails = false → k.bind_fails = false →
      Call.listen (w.lowest_free : Int) 5 ∈ issued w (BindTCP k addr handler w).world) := by
  refine ⟨?_, ?_⟩
  all_goals
    cases hacc : handler.acceptable with
    | false =>
      rw [BindTCP_aborts k addr handler w hacc]
      simp [Outcome.world, issued_self]
    | true =>
      cases hn : BindTCP.slen addr.sa_family with
      | none =>
        rw [BindTCP_default k addr handler w hacc hn]
        simp [Outcome.world, issued_self]
      | some n =>
        cases hs : k.socket_fails with
        | true =>
          rw [BindTCP_socket_fails k addr handler w n hacc hn hs]
          simp [Outcome.world, issued_append]
        | false =>
          cases hb : k.bind_fails with
          | true =>
            rw [BindTCP_bind_fails k addr handler w n hacc hn hs hb]
            simp [Outcome.world, issued_append]
          | false =>
            cases hl : k.listen_fails with
            | true =>
              rw [BindTCP_listen_fails k addr handler w n hacc hn hs hb hl]
              simp [Outcome.world, issued_append, Call.is_listen, List.filter_cons]
            | false =>
              rw [BindTCP_reaches_TrackConn k addr handler w n hacc hn hs hb hl]
              simp [Outcome.world, issued_append, Call.is_listen, List.filter_cons]

/-- Witness of C7: 127.0.0.1:8080 on an empty process where no call fails:
exactly one `socket` call is issued. -/
theorem BindTCP_socket_request_witness :
    (issued World.empty
      (BindTCP Kernel.all_succeed loopback listener World.empty).world).countP Call.is_socket
      = 1 :=
  (BindTCP_socket_request Kernel.all_succeed loopback listener World.empty).2.2.1 rfl
    (by decide)

/-- Witness of C8: a handler that is not acceptable stops at the assertion,
an acceptable one returns. -/
theorem BindTCP_assert_witness :
    (BindTCP Kernel.all_succeed loopback ⟨-1, false⟩ World.empty = Outcome.aborted World.empty ∧
      issued World.empty
        (BindTCP Kernel.all_succeed loopback ⟨-1, false⟩ World.empty).world = [] ∧
      (BindTCP Kernel.all_succeed loopback ⟨-1, false⟩ World.empty).world.fds
        = World.empty.fds ∧
      (BindTCP Kernel.all_succeed loopback ⟨-1, false⟩ World.empty).world.tracked
        = World.empty.tracked) ∧
    (∃ (r : Bool × io) (w1 : World),
      BindTCP Kernel.all_succeed loopback listener World.empty = Outcome.returned r w1) :=
  ⟨(BindTCP_assert Kernel.all_succeed loopback ⟨-1, false⟩ World.empty).1 rfl,
    (BindTCP_assert Kernel.all_succeed loopback listener World.empty).2 rfl⟩

/-- Witness of C9: 127.0.0.1:8080 on an empty process where no call fails
reaches the listen step, on descriptor 0 with backlog 5. -/
theorem BindTCP_listen_backlog_witness :
    Call.listen 0 5 ∈ issued World.empty
      (BindTCP Kernel.all_succeed loopback listener World.empty).world :=
  (BindTCP_listen_backlog Kernel.all_succeed loopback listener World.empty).2 rfl
    (by decide) rfl rfl

/-- C1, the code at the failing input: 127.0.0.1:8080, an acceptable handler,
an empty process; `socket`, `bind` and `listen` succeed and `TrackConn` fails.
`BindTCP` returns false, but descriptor 0, which it created, is still open
(and stored in `handler->fd`): no `close` is issued, and the open descriptors
are no longer those from before the call. -/
theorem BindTCP_TrackConn_fails_leaves_open :
    BindTCP ⟨false, false, false, true, false⟩ loopback listener World.empty
      = Outcome.returned (false, ⟨0, true⟩)
        ⟨[⟨0, AF_INET, 2049, 2050, some (loopback, 16), some 5⟩], [],
          [Call.socket AF_INET 2049 0, Call.bind 0 loopback 16, Call.listen 0 5,
            Call.TrackConn ⟨0, true⟩]⟩ ∧
    (BindTCP ⟨false, false, false, true, false⟩ loopback listener
      World.empty).world.open_fds = [0] ∧
    World.empty.open_fds = [] := by
  decide

/-! ## The claims on `SetNonBlocking` -/

theorem int_or_nonneg (n : Nat) (hn : n < 2147483648) :
    int_or (n : Int) O_NONBLOCK = ((n ||| 2048 : Nat) : Int) := by
  have h1 : ((n : Int) % 4294967296).toNat = n := by
    have : ((n : Int) % 4294967296) = ((n % 4294967296 : Nat) : Int) := by norm_cast
    rw [this, Int.toNat_ofNat]
    omega
  have h2 : n ||| 2048 < 2147483648 := by
    have := @Nat.or_lt_two_pow n 2048 31 (by omega) (by omega)
    simpa using this
  simp only [int_or, O_NONBLOCK, h1]
  have h3 : ((2048 : Int) % 4294967296).toNat = 2048 := by decide
  rw [h3, if_pos h2]

theorem testBit_or_nonblock (n i : Nat) :
    (n ||| 2048).testBit i = if i = 11 then true else n.testBit i := by
  rw [Nat.testBit_or]
  have h : (2048 : Nat) = 2 ^ 11 := by norm_num
  rw [h, Nat.testBit_two_pow]
  by_cases hi : i = 11
  · simp [hi]
  · have : ¬ (11 = i) := fun h => hi h.symm
    simp [hi, this]

theorem testBit_complement (m i : Nat) (hm : m < 2147483648) :
    (4294967295 - m).testBit i = (decide (i < 32) && !m.testBit i) := by
  have h : 4294967295 - m = 2 ^ 32 - (m + 1) := by norm_num; omega
  rw [h]
  exact Nat.testBit_two_pow_sub_succ (by norm_num; omega) i

theorem int_or_neg (m : Nat) (hm : m < 2147483648) :
    int_or (Int.negSucc m) O_NONBLOCK
      = Int.negSucc (4294967295 - ((4294967295 - m) ||| 2048)) := by
  have h1 : ((Int.negSucc m) % 4294967296).toNat = 4294967295 - m := by
    have : Int.negSucc m = -((m : Int) + 1) := rfl
    rw [this]
    omega
  have h3 : ((2048 : Int) % 4294967296).toNat = 2048 := by decide
  have hlt : (4294967295 - m) ||| 2048 < 4294967296 := by
    have := @Nat.or_lt_two_pow (4294967295 - m) 2048 32 (by omega) (by omega)
    simpa using this
  have hge : ¬ ((4294967295 - m) ||| 2048 < 2147483648) := by
    intro hlt31
    have hbit : ((4294967295 - m) ||| 2048).testBit 31 = false :=
      Nat.testBit_lt_two_pow (by norm_num; exact hlt31)
    have hm31 : m.testBit 31 = false := Nat.testBit_lt_two_pow (by norm_num; exact hm)
    rw [Nat.testBit_or, testBit_complement m 31 hm, hm31] at hbit
    simp at hbit
  simp only [int_or, O_NONBLOCK, h1, h3, if_neg hge]
  have : Int.negSucc (4294967295 - ((4294967295 - m) ||| 2048))
      = -(((4294967295 - ((4294967295 - m) ||| 2048) : Nat) : Int) + 1) := rfl
  rw [this]
  omega

theorem int_or_testBit (f : Int) (hlo : -2147483648 ≤ f) (hhi : f < 2147483648) (i : Nat) :
    Int.testBit (int_or f O_NONBLOCK) i = if i = 11 then true else Int.testBit f i := by
  cases f with
  | ofNat n =>
    have hn : n < 2147483648 := by
      have : (n : Int) < 2147483648 := hhi
      omega
    have := int_or_nonneg n hn
    show Int.testBit (int_or (n : Int) O_NONBLOCK) i = _
    rw [this]
    exact testBit_or_nonblock n i
  | negSucc m =>
    have hm : m < 2147483648 := by
      have : -2147483648 ≤ -((m : Int) + 1) := hlo
      omega
    rw [int_or_neg m hm]
    have hlt : (4294967295 - m) ||| 2048 < 4294967296 := by
      have := @Nat.or_lt_two_pow (4294967295 - m) 2048 32 (by omega) (by omega)
      simpa using this
    show (!Nat.testBit (4294967295 - ((4294967295 - m) ||| 2048)) i)
      = if i = 11 then true else !Nat.testBit m i
    have h : 4294967295 - ((4294967295 - m) ||| 2048)
        = 2 ^ 32 - (((4294967295 - m) ||| 2048) + 1) := by norm_num; omega
    rw [h, Nat.testBit_two_pow_sub_succ (by norm_num; exact hlt) i, testBit_or_nonblock,
      testBit_complement m i hm]
    by_cases hi : i = 11
    · simp [hi]
    · by_cases h32 : i < 32
      · simp [hi, h32]
      · have : m.testBit i = false :=
          Nat.testBit_lt_two_pow (lt_of_lt_of_le hm (by
            have : (2:Nat) ^ 32 ≤ 2 ^ i := Nat.pow_le_pow_right (by norm_num) (by omega)
            norm_num at this ⊢
            omega))
        simp [hi, h32, this]

theorem getfl_world (k : Kernel) (fd : Int) (w : World) :
    (sys_fcntl_getfl k fd w).2 = w.log (Call.fcntl_getfl fd) := by
  unfold sys_fcntl_getfl
  split <;> rfl

theorem settable_bits_or_nonblock (o : Nat) (ho : o < 4294967296) :
    ((o ||| 2048) &&& SETFL_MASK) ||| (o &&& (4294967295 - SETFL_MASK)) = o ||| 2048 := by
  apply Nat.eq_of_testBit_eq
  intro i
  have hc : (4294967295 - SETFL_MASK).testBit i
      = (decide (i < 32) && !SETFL_MASK.testBit i) := by
    have h : 4294967295 - SETFL_MASK = 2 ^ 32 - (SETFL_MASK + 1) := by
      norm_num [SETFL_MASK]
    rw [h]
    exact Nat.testBit_two_pow_sub_succ (by norm_num [SETFL_MASK]) i
  have hnb : (2048 : Nat).testBit i = decide (11 = i) := by
    have h : (2048 : Nat) = 2 ^ 11 := by norm_num
    rw [h, Nat.testBit_two_pow]
  simp only [Nat.testBit_or, Nat.testBit_and, hc, hnb]
  by_cases hi : 11 = i
  · subst hi
    have : SETFL_MASK.testBit 11 = true := by decide
    simp [this]
  · by_cases h32 : i < 32
    · cases o.testBit i <;> cases SETFL_MASK.testBit i <;> simp [hi, h32]
    · have : o.testBit i = false :=
        Nat.testBit_lt_two_pow (lt_of_lt_of_le ho (by
          have : (2 : Nat) ^ 32 ≤ 2 ^ i := Nat.pow_le_pow_right (by norm_num) (by omega)
          norm_num at this ⊢
          omega))
      simp [hi, h32, this]

theorem setfl_flags_or_nonblock (f : Int) :
    setfl_flags f (int_or f O_NONBLOCK) = int_or f O_NONBLOCK := by
  have ho : (f % 4294967296).toNat < 4294967296 := by omega
  have h3 : ((2048 : Int) % 4294967296).toNat = 2048 := by decide
  have hu : (f % 4294967296).toNat ||| 2048 < 4294967296 := by
    have := @Nat.or_lt_two_pow (f % 4294967296).toNat 2048 32 (by omega) (by omega)
    simpa using this
  have hback : ((int_or f O_NONBLOCK) % 4294967296).toNat = (f % 4294967296).toNat ||| 2048 := by
    simp only [int_or, O_NONBLOCK, h3]
    split <;> omega
  simp only [setfl_flags, hback, settable_bits_or_nonblock _ ho]
  simp only [int_or, O_NONBLOCK, h3]

/-- C3: when the flag read `fcntl(fd, F_GETFL, 0)` on `handler->fd` succeeds
with value `f` (an `int` other than -1) and the flag write succeeds,
`SetNonBlocking` returns true; it issues exactly the read and then the write
of `f | O_NONBLOCK`; afterwards the descriptor `handler->fd` is open with
flags `f | O_NONBLOCK`; and in `f | O_NONBLOCK` the O_NONBLOCK bit (bit 11)
is set and every other bit is the bit of `f`. -/
theorem SetNonBlocking_preserves_flags (k : Kernel) (handler : io) (w : World) (f : Int)
    (hread : (sys_fcntl_getfl k handler.fd w).1 = f) (hf : f ≠ -1)
    (hlo : -2147483648 ≤ f) (hhi : f < 2147483648)
    (hwrite : (sys_fcntl_setfl k handler.fd (int_or f O_NONBLOCK)
      (sys_fcntl_getfl k handler.fd w).2).1 ≠ -1) :
    (SetNonBlocking k handler w).1 = true ∧
    issued w (SetNonBlocking k handler w).2
      = [Call.fcntl_getfl handler.fd, Call.fcntl_setfl handler.fd (int_or f O_NONBLOCK)] ∧
    (∃ d ∈ (SetNonBlocking k handler w).2.fds, d.fd = handler.fd) ∧
    (∀ d ∈ (SetNonBlocking k handler w).2.fds, d.fd = handler.fd →
      d.flags = int_or f O_NONBLOCK) ∧
    (∀ i : Nat, Int.testBit (int_or f O_NONBLOCK) i
      = if i = 11 then true else Int.testBit f i) := by
  have hw2 := getfl_world k handler.fd w
  rw [hw2] at hwrite
  cases hfind : w.fds.find? (fun d => decide (d.fd = handler.fd)) with
  | none =>
    exfalso
    apply hwrite
    simp [sys_fcntl_setfl, World.log, hfind]
  | some d0 =>
    have hd0 : d0.flags = f := by
      rw [← hread]
      simp [sys_fcntl_getfl, hfind]
    have hok : (k.setfl_fails
        || (((int_or f O_NONBLOCK) % 4294967296).toNat).testBit 14) = false := by
      cases hb : (k.setfl_fails
        || (((int_or f O_NONBLOCK) % 4294967296).toNat).testBit 14) with
      | false => rfl
      | true =>
        exfalso
        apply hwrite
        simp only [sys_fcntl_setfl, World.log, hfind, hb, if_true]
    have hS : SetNonBlocking k handler w = (true,
        ⟨w.fds.map (fun d => if d.fd = handler.fd then { d with flags := int_or f O_NONBLOCK }
            else d), w.tracked,
          w.calls ++ [Call.fcntl_getfl handler.fd,
            Call.fcntl_setfl handler.fd (int_or f O_NONBLOCK)]⟩) := by
      have hp : sys_fcntl_getfl k handler.fd w = (f, w.log (Call.fcntl_getfl handler.fd)) :=
        Prod.ext hread hw2
      simp only [SetNonBlocking, hp, sys_fcntl_setfl, World.log, hfind, hok, hd0,
        setfl_flags_or_nonblock]
      simp [World.update]
    rw [hS]
    refine ⟨rfl, issued_append _ _ _ _, ?_, ?_, ?_⟩
    · have hfd : d0.fd = handler.fd := by simpa using List.find?_some hfind
      exact ⟨{ d0 with flags := int_or f O_NONBLOCK },
        List.mem_map.2 ⟨d0, List.mem_of_find?_eq_some hfind, by simp [hfd]⟩, hfd⟩
    · intro d hd hfd
      obtain ⟨a, _, rfl⟩ := List.mem_map.1 hd
      by_cases ha : a.fd = handler.fd
      · simp [ha]
      · simp [ha] at hfd
    · exact int_or_testBit f hlo hhi

/-- Witness of C3: descriptor 3 is open with flags O_RDWR and no call fails. -/
theorem SetNonBlocking_preserves_flags_witness :
    (sys_fcntl_getfl Kernel.all_succeed (io.mk 3 false).fd World.one_socket).1 = 2 ∧
    (2 : Int) ≠ -1 ∧ (-2147483648 : Int) ≤ 2 ∧ (2 : Int) < 2147483648 ∧
    (sys_fcntl_setfl Kernel.all_succeed (io.mk 3 false).fd (int_or 2 O_NONBLOCK)
      (sys_fcntl_getfl Kernel.all_succeed (io.mk 3 false).fd World.one_socket).2).1 ≠ -1 ∧
    ((SetNonBlocking Kernel.all_succeed ⟨3, false⟩ World.one_socket).1 = true ∧
      issued World.one_socket (SetNonBlocking Kernel.all_succeed ⟨3, false⟩ World.one_socket).2
        = [Call.fcntl_getfl (io.mk 3 false).fd,
           Call.fcntl_setfl (io.mk 3 false).fd (int_or 2 O_NONBLOCK)] ∧
      (∃ d ∈ (SetNonBlocking Kernel.all_succeed ⟨3, false⟩ World.one_socket).2.fds,
        d.fd = (io.mk 3 false).fd) ∧
      (∀ d ∈ (SetNonBlocking Kernel.all_succeed ⟨3, false⟩ World.one_socket).2.fds,
        d.fd = (io.mk 3 false).fd → d.flags = int_or 2 O_NONBLOCK) ∧
      (∀ i : Nat, Int.testBit (int_or 2 O_NONBLOCK) i
        = if i = 11 then true else Int.testBit 2 i)) :=
  ⟨by decide, by decide, by decide, by decide, by decide,
    SetNonBlocking_preserves_flags Kernel.all_succeed ⟨3, false⟩ World.one_socket 2
      (by decide) (by decide) (by decide) (by decide) (by decide)⟩

end nntpchan
